import Mathlib

/-!
Shallow embedding of the Telegram bot-hosting service (`src/app.py`):
the in-memory expiring key-value store (`MemoryStorage`), the lifecycle
manager (`BotManager`), and the stats endpoint, together with proofs of
the specification claims about them.

Python strings are modelled as `List Char`; Python `dict`s (which keep
insertion order) as association lists where updating an existing key
replaces it in place and a fresh key is appended.  `time.time()` is an
explicit `now : Int` argument to every operation that reads the clock.
-/

/-- A Python string, as a list of characters. -/
abbrev Str := List Char

/-- The values stored in `MemoryStorage.data`: Python `None`, strings,
and numbers (ints and the timestamps produced by `time.time()`,
modelled as integers). -/
inductive Value where
  | nil : Value
  | str (s : Str) : Value
  | num (n : Int) : Value
deriving DecidableEq

/-- Python `int(v)` as used by `MemoryStorage.incr`: succeeds on numbers,
raises (here: `none`) on `None` and on the non-numeric strings that are
the only strings the program ever stores. -/
def Value.toInt? : Value → Option Int
  | .num n => some n
  | .str _ => none
  | .nil => none

/-- Lookup in a Python dict modelled as an association list. -/
def alGet : List (Str × α) → Str → Option α
  | [], _ => none
  | p :: t, k => if p.1 == k then some p.2 else alGet t k

/-- `d[k] = v` on a Python dict: replace in place if the key is present,
append otherwise (Python dicts preserve insertion order). -/
def alSet : List (Str × α) → Str → α → List (Str × α)
  | [], k, v => [(k, v)]
  | p :: t, k, v => if p.1 == k then (k, v) :: t else p :: alSet t k v

/-- `d.pop(k, None)` on a Python dict: drop the entry for `k`, if any. -/
def alDel : List (Str × α) → Str → List (Str × α)
  | [], _ => []
  | p :: t, k => if p.1 == k then alDel t k else p :: alDel t k

/-- The `stats` dict created in `MemoryStorage.__init__`. -/
structure StorageStats where
  bots_created : Int
  bots_active : Int
  memory_usage : Int
  last_cleanup : Int
deriving DecidableEq

/-- The `MemoryStorage` class: `data`, `expiry` (key → absolute expiry
instant) and the `stats` dict. -/
structure MemoryStorage where
  data : List (Str × Value)
  expiry : List (Str × Int)
  stats : StorageStats
deriving DecidableEq

/-- `MemoryStorage()` at process start time `t0`. -/
def initStorage (t0 : Int) : MemoryStorage :=
  { data := [], expiry := [],
    stats := { bots_created := 0, bots_active := 0, memory_usage := 0, last_cleanup := t0 } }

/-- `MemoryStorage.set(key, value, ttl=None)`.  Python's `if ttl:` is
truthiness: both `None` and `0` skip the expiry write (and an existing
expiry entry for the key is left untouched). -/
def MemoryStorage.set (st : MemoryStorage) (k : Str) (v : Value)
    (ttl : Option Int) (now : Int) : MemoryStorage :=
  { st with
    data := alSet st.data k v
    expiry :=
      match ttl with
      | some t => if t = 0 then st.expiry else alSet st.expiry k (now + t)
      | none => st.expiry }

/-- `MemoryStorage.delete(key)`. -/
def MemoryStorage.delete (st : MemoryStorage) (k : Str) : MemoryStorage :=
  { st with data := alDel st.data k, expiry := alDel st.expiry k }

/-- `MemoryStorage.get(key, default)`: if the key has an expiry entry in
the past, delete the key and return the default; otherwise read `data`.
Returns the (possibly mutated) storage together with the value. -/
def MemoryStorage.get (st : MemoryStorage) (k : Str) (default : Value)
    (now : Int) : MemoryStorage × Value :=
  match alGet st.expiry k with
  | some exp =>
      if exp < now then (st.delete k, default)
      else (st, (alGet st.data k).getD default)
  | none => (st, (alGet st.data k).getD default)

/-- Does `k` start with `p`? -/
def strStarts : Str → Str → Bool
  | _, [] => true
  | [], _ :: _ => false
  | a :: as, b :: bs => a == b && strStarts as bs

/-- Python's `p in k` on strings: `p` occurs in `k` as a contiguous
substring. -/
def strContains : Str → Str → Bool
  | k, p =>
    if strStarts k p then true
    else
      match k with
      | [] => false
      | _ :: ks => strContains ks p

/-- `MemoryStorage.keys(pattern)`: all data keys for `"*"`, otherwise the
keys containing `pattern` as a literal substring (Python `pattern in k`). -/
def MemoryStorage.keys (st : MemoryStorage) (pattern : Str) : List Str :=
  if pattern = ['*'] then st.data.map Prod.fst
  else (st.data.map Prod.fst).filter (fun k => strContains k pattern)

/-- `MemoryStorage.exists(key)`: membership in `data` only — the expiry
map is not consulted. -/
def MemoryStorage.existsKey (st : MemoryStorage) (k : Str) : Bool :=
  st.data.any (fun p => p.1 == k)

/-- `MemoryStorage.incr(key)`: `val = int(self.get(key, 0))` followed by
`self.set(key, val + 1)`.  The side effect of the inner `get` persists
even when `int()` raises (second component `none`). -/
def MemoryStorage.incr (st : MemoryStorage) (k : Str) (now : Int) :
    MemoryStorage × Option Int :=
  let r := st.get k (Value.num 0) now
  match r.2.toInt? with
  | some n => ((r.1.set k (Value.num (n + 1)) none now), some (n + 1))
  | none => (r.1, none)

/-- `MemoryStorage.cleanup_expired()`: delete every key whose expiry
instant is in the past, record the sweep time, return the count removed. -/
def MemoryStorage.cleanup_expired (st : MemoryStorage) (now : Int) :
    MemoryStorage × Int :=
  let expired := ((st.expiry.filter (fun p => p.2 < now)).map Prod.fst)
  let st' := expired.foldl (fun s k => s.delete k) st
  ({ st' with stats := { st'.stats with last_cleanup := now } }, expired.length)

/-- The read phase of `MemoryStorage.incr`: `int(self.get(key, 0))`. -/
def MemoryStorage.incrRead (st : MemoryStorage) (k : Str) (now : Int) :
    MemoryStorage × Option Int :=
  let r := st.get k (Value.num 0) now
  (r.1, r.2.toInt?)

/-- The write phase of `MemoryStorage.incr`: `self.set(key, val + 1)`. -/
def MemoryStorage.incrWrite (st : MemoryStorage) (k : Str) (n : Int)
    (now : Int) : MemoryStorage :=
  st.set k (Value.num (n + 1)) none now

/-! ## Keys used by the bot manager (the f-strings of `app.py`) -/

/-- `f"bot:{token}:code"`. -/
def codeKey (t : Str) : Str := ("bot:".toList) ++ t ++ (":code".toList)

/-- `f"bot:{token}:status"`. -/
def statusKey (t : Str) : Str := ("bot:".toList) ++ t ++ (":status".toList)

/-- `f"bot:{token}:last_active"`. -/
def lastActiveKey (t : Str) : Str := ("bot:".toList) ++ t ++ (":last_active".toList)

/-- `f"bot:{token}:created_at"`. -/
def createdAtKey (t : Str) : Str := ("bot:".toList) ++ t ++ (":created_at".toList)

/-- `f"bot:{token}:memory"`. -/
def memoryKey (t : Str) : Str := ("bot:".toList) ++ t ++ (":memory".toList)

/-- `f"webhook:{token}"`. -/
def webhookKey (t : Str) : Str := ("webhook:".toList) ++ t

/-- `"stats:bots_created"`, the counter key incremented by `start_bot`. -/
def statsCreatedKey : Str := "stats:bots_created".toList

/-- `f"bot:{token}:*"`, the pattern `delete_bot` passes to `keys`. -/
def botGlobPat (t : Str) : Str := ("bot:".toList) ++ t ++ (":*".toList)

/-- `"bot:*:status"`, the pattern `get_all_bots` passes to `keys`. -/
def statusGlobPat : Str := "bot:*:status".toList

/-! ## The bot manager -/

/-- The mutable state of `BotManager`: `self.bots` (token → running
application instance, here an instance id) and `self.bot_tasks`
(token → asyncio task, here a task id). -/
structure BotManager where
  bots : List (Str × Nat)
  bot_tasks : List (Str × Nat)
deriving DecidableEq

/-- The whole mutable state of the process: the module-level `storage`
plus the `bot_manager`. -/
structure Sys where
  storage : MemoryStorage
  mgr : BotManager
deriving DecidableEq

/-- The process state right after startup at time `t0`. -/
def initSys (t0 : Int) : Sys :=
  { storage := initStorage t0, mgr := { bots := [], bot_tasks := [] } }

/-- `BotManager.stop_bot(token)`.  `teardownFails` models an exception
raised by `asyncio.run(bot_instance.stop())` inside the `if` branch: the
`except` handler then skips the handle/task cleanup but still writes
`status = "stopped"` and returns `True`.  On every path the status key is
set to `"stopped"` and the result is `True`. -/
def stop_bot (s : Sys) (token : Str) (teardownFails : Bool) (now : Int) :
    Sys × Bool :=
  if (alGet s.mgr.bots token).isSome then
    if teardownFails then
      ({ s with storage := s.storage.set (statusKey token) (Value.str ("stopped".toList)) none now },
       true)
    else
      ({ storage := s.storage.set (statusKey token) (Value.str ("stopped".toList)) none now,
         mgr := { bots := alDel s.mgr.bots token,
                  bot_tasks := alDel s.mgr.bot_tasks token } },
       true)
  else
    ({ s with storage := s.storage.set (statusKey token) (Value.str ("stopped".toList)) none now },
     true)

/-- The synchronous body of `BotManager.start_bot(token, code)`: stop an
existing instance, write code/status/last_active/created_at, increment
`"stats:bots_created"`, then schedule the `run_bot` task.

`teardownFails` is forwarded to the inner `stop_bot`; `schedFails` models
an exception while creating the event loop / thread (after the storage
writes): the `except` handler writes `status = "error"` and returns
`False`.  An `int()` failure inside `incr` (second component `none`) hits
the same `except` handler.  On success the task id is recorded in
`bot_tasks` and the call returns `True`; the instance is registered in
`self.bots` only later, by the scheduled task (`run_bot_step`). -/
def start_bot (s : Sys) (token code : Str) (teardownFails schedFails : Bool)
    (now : Int) (taskId : Nat) : Sys × Bool :=
  let s0 := if (alGet s.mgr.bots token).isSome
            then (stop_bot s token teardownFails now).1 else s
  let st := s0.storage.set (codeKey token) (Value.str code) none now
  let st := st.set (statusKey token) (Value.str ("active".toList)) none now
  let st := st.set (lastActiveKey token) (Value.num now) none now
  let st := st.set (createdAtKey token) (Value.num now) none now
  let r := st.incr statsCreatedKey now
  match r.2 with
  | none =>
      ({ s0 with storage := r.1.set (statusKey token) (Value.str ("error".toList)) none now },
       false)
  | some _ =>
      if schedFails then
        ({ s0 with storage := r.1.set (statusKey token) (Value.str ("error".toList)) none now },
         false)
      else
        ({ storage := r.1,
           mgr := { bots := s0.mgr.bots,
                    bot_tasks := alSet s0.mgr.bot_tasks token taskId } },
         true)

/-- The asynchronous `run_bot` body scheduled by `start_bot`: on a
successful `create_bot_instance` it registers the instance in
`self.bots`; on failure (`None` returned, or an exception) it writes
`status = "error"`. -/
def run_bot_step (s : Sys) (token : Str) (launchOk : Bool) (instId : Nat)
    (now : Int) : Sys :=
  if launchOk then
    { s with mgr := { s.mgr with bots := alSet s.mgr.bots token instId } }
  else
    { s with storage := s.storage.set (statusKey token) (Value.str ("error".toList)) none now }

/-- `BotManager.delete_bot(token)`: `stop_bot`, then delete every key
returned by `storage.keys(f"bot:{token}:*")`, then delete
`f"webhook:{token}"`. -/
def delete_bot (s : Sys) (token : Str) (teardownFails : Bool) (now : Int) :
    Sys × Bool :=
  let s1 := (stop_bot s token teardownFails now).1
  let ks := s1.storage.keys (botGlobPat token)
  let st := ks.foldl (fun st k => st.delete k) s1.storage
  ({ s1 with storage := st.delete (webhookKey token) }, true)

/-- The dict built by `BotManager.get_bot_info(token)`. -/
structure BotInfo where
  status : Value
  created_at : Value
  last_active : Value
  memory_used : Value
  is_running : Bool
deriving DecidableEq

/-- `BotManager.get_bot_info(token)`: four `storage.get` reads (each may
lazily expire its key) and a handle-presence check.  Returns the mutated
storage together with the info dict. -/
def get_bot_info (s : Sys) (token : Str) (now : Int) : MemoryStorage × BotInfo :=
  let r1 := s.storage.get (statusKey token) (Value.str ("not_found".toList)) now
  let r2 := r1.1.get (createdAtKey token) Value.nil now
  let r3 := r2.1.get (lastActiveKey token) Value.nil now
  let r4 := r3.1.get (memoryKey token) (Value.num 0) now
  (r4.1,
   { status := r1.2, created_at := r2.2, last_active := r3.2,
     memory_used := r4.2, is_running := (alGet s.mgr.bots token).isSome })

/-- Python `key.split(":")` (split on every colon; no empty-separator
special cases arise here). -/
def splitColon : Str → List Str
  | [] => [[]]
  | c :: cs =>
      let r := splitColon cs
      if c = ':' then [] :: r
      else
        match r with
        | [] => [[c]]
        | p :: ps => (c :: p) :: ps

/-- One summary dict built by `BotManager.get_all_bots`. -/
structure BotSummary where
  token : Str
  status : Value
  created_at : Value
deriving DecidableEq

/-- One iteration of the `get_all_bots` loop: for a matched `key`, take
`token = key.split(":")[1]` and append the summary
`{token: token[:10] + "...", status: storage.get(key),
created_at: storage.get(f"bot:{token}:created_at")}`, threading the lazy
expiry side effects of the two `get`s. -/
def get_all_bots_step (now : Int) (acc : MemoryStorage × List BotSummary)
    (key : Str) : MemoryStorage × List BotSummary :=
  let tokenSeg := ((splitColon key).get? 1).getD []
  let r1 := acc.1.get key Value.nil now
  let r2 := r1.1.get (createdAtKey tokenSeg) Value.nil now
  (r2.1,
   acc.2 ++ [{ token := tokenSeg.take 10 ++ ("...".toList),
               status := r1.2, created_at := r2.2 }])

/-- `BotManager.get_all_bots()`: iterate `get_all_bots_step` over
`storage.keys("bot:*:status")`. -/
def get_all_bots (s : Sys) (now : Int) : MemoryStorage × List BotSummary :=
  (s.storage.keys statusGlobPat).foldl (get_all_bots_step now) (s.storage, [])

/-- The payload of the `/api/stats` endpoint (`get_stats`), built from
`storage.stats['bots_created']`, `len(bot_manager.bots)`,
`storage.stats['memory_usage']`, `len(storage.data)` and
`time.time() - storage.stats['last_cleanup']`. -/
structure StatsView where
  bots_created : Int
  bots_active : Nat
  memory_usage_mb : Int
  storage_items : Nat
  uptime_seconds : Int
deriving DecidableEq

/-- `get_stats()` (route `/api/stats`). -/
def get_stats (s : Sys) (now : Int) : StatsView :=
  { bots_created := s.storage.stats.bots_created
    bots_active := s.mgr.bots.length
    memory_usage_mb := s.storage.stats.memory_usage
    storage_items := s.storage.data.length
    uptime_seconds := now - s.storage.stats.last_cleanup }

/-! ## Association-list lemmas -/

theorem alGet_nil (k : Str) : alGet ([] : List (Str × α)) k = none := rfl

theorem alGet_alSet_self (l : List (Str × α)) (k : Str) (v : α) :
    alGet (alSet l k v) k = some v := by
  induction l with
  | nil => simp [alGet, alSet]
  | cons p t ih =>
      by_cases hp : (p.1 == k) = true
      · simp [alGet, alSet, hp]
      · simp [alGet, alSet, hp, ih]

theorem alGet_alSet_ne (l : List (Str × α)) (k k' : Str) (v : α)
    (h : k' ≠ k) : alGet (alSet l k v) k' = alGet l k' := by
  have hk : (k == k') = false := beq_eq_false_iff_ne.mpr (Ne.symm h)
  induction l with
  | nil => simp [alGet, alSet, hk]
  | cons p t ih =>
      by_cases hp : (p.1 == k) = true
      · have hp' : (p.1 == k') = false := by
          have he : p.1 = k := by simpa using hp
          simpa [he] using hk
        simp [alGet, alSet, hp, hp', hk]
      · by_cases hq : (p.1 == k') = true
        · simp [alGet, alSet, hp, hq]
        · simp [alGet, alSet, hp, hq, ih]

theorem alGet_alDel_self (l : List (Str × α)) (k : Str) :
    alGet (alDel l k) k = none := by
  induction l with
  | nil => simp [alGet, alDel]
  | cons p t ih =>
      by_cases hp : (p.1 == k) = true
      · simp [alDel, hp, ih]
      · simp [alGet, alDel, hp, ih]

theorem alGet_alDel_ne (l : List (Str × α)) (k k' : Str) (h : k' ≠ k) :
    alGet (alDel l k) k' = alGet l k' := by
  induction l with
  | nil => simp [alDel]
  | cons p t ih =>
      by_cases hp : (p.1 == k) = true
      · have hp' : (p.1 == k') = false := by
          have he : p.1 = k := by simpa using hp
          exact beq_eq_false_iff_ne.mpr (by simpa [he] using Ne.symm h)
        simp [alGet, alDel, hp, hp', ih]
      · by_cases hq : (p.1 == k') = true
        · simp [alGet, alDel, hp, hq]
        · simp [alGet, alDel, hp, hq, ih]

theorem mem_map_fst_of_alGet {l : List (Str × α)} {k : Str} {v : α}
    (h : alGet l k = some v) : k ∈ l.map Prod.fst := by
  induction l with
  | nil => simp [alGet] at h
  | cons p t ih =>
      by_cases hp : (p.1 == k) = true
      · have hpk : p.1 = k := by simpa using hp
        simp only [List.map_cons]
        exact List.mem_cons.mpr (Or.inl hpk.symm)
      · simp only [alGet, hp, if_false] at h
        simp [ih h]

theorem alGet_of_mem_map_fst {l : List (Str × α)} {k : Str}
    (h : k ∈ l.map Prod.fst) : (alGet l k).isSome := by
  induction l with
  | nil => simp at h
  | cons p t ih =>
      by_cases hp : (p.1 == k) = true
      · simp [alGet, hp]
      · have hmem : k ∈ t.map Prod.fst := by
          rcases List.mem_map.mp h with ⟨q, hq, hfst⟩
          rcases List.mem_cons.mp hq with hq | hq
          · exact absurd (by simp [show p.1 = k from hq ▸ hfst]) hp
          · exact hfst ▸ List.mem_map_of_mem Prod.fst hq
        simpa [alGet, hp] using ih hmem

/-! ## Distinctness of the storage keys -/

theorem botKey_ne_botKey {a b : Str} (t : Str) (h : a ≠ b) :
    ("bot:".toList ++ t ++ a) ≠ ("bot:".toList ++ t ++ b) :=
  fun he => h (List.append_cancel_left he)

theorem statsKey_ne_botKey (t a : Str) :
    statsCreatedKey ≠ ("bot:".toList ++ t ++ a) := by
  intro h
  have h' : ('s' : Char) :: ("tats:bots_created".toList)
      = 'b' :: (("ot:".toList ++ t) ++ a) := h
  exact absurd (List.cons.inj h').1 (by decide)

@[simp] theorem codeKey_beq_statusKey (t : Str) :
    (codeKey t == statusKey t) = false :=
  beq_eq_false_iff_ne.mpr (botKey_ne_botKey t (by decide))

@[simp] theorem codeKey_beq_lastActiveKey (t : Str) :
    (codeKey t == lastActiveKey t) = false :=
  beq_eq_false_iff_ne.mpr (botKey_ne_botKey t (by decide))

@[simp] theorem statusKey_beq_lastActiveKey (t : Str) :
    (statusKey t == lastActiveKey t) = false :=
  beq_eq_false_iff_ne.mpr (botKey_ne_botKey t (by decide))

@[simp] theorem codeKey_beq_createdAtKey (t : Str) :
    (codeKey t == createdAtKey t) = false :=
  beq_eq_false_iff_ne.mpr (botKey_ne_botKey t (by decide))

@[simp] theorem statusKey_beq_createdAtKey (t : Str) :
    (statusKey t == createdAtKey t) = false :=
  beq_eq_false_iff_ne.mpr (botKey_ne_botKey t (by decide))

@[simp] theorem lastActiveKey_beq_createdAtKey (t : Str) :
    (lastActiveKey t == createdAtKey t) = false :=
  beq_eq_false_iff_ne.mpr (botKey_ne_botKey t (by decide))

@[simp] theorem codeKey_beq_statsKey (t : Str) :
    (codeKey t == statsCreatedKey) = false :=
  beq_eq_false_iff_ne.mpr (Ne.symm (statsKey_ne_botKey t (":code".toList)))

@[simp] theorem statusKey_beq_statsKey (t : Str) :
    (statusKey t == statsCreatedKey) = false :=
  beq_eq_false_iff_ne.mpr (Ne.symm (statsKey_ne_botKey t (":status".toList)))

@[simp] theorem lastActiveKey_beq_statsKey (t : Str) :
    (lastActiveKey t == statsCreatedKey) = false :=
  beq_eq_false_iff_ne.mpr (Ne.symm (statsKey_ne_botKey t (":last_active".toList)))

@[simp] theorem createdAtKey_beq_statsKey (t : Str) :
    (createdAtKey t == statsCreatedKey) = false :=
  beq_eq_false_iff_ne.mpr (Ne.symm (statsKey_ne_botKey t (":created_at".toList)))

/-! ## Generic storage facts used by several claims -/

theorem existsKey_of_mem {st : MemoryStorage} {k : Str}
    (h : k ∈ st.data.map Prod.fst) : st.existsKey k = true := by
  simp only [MemoryStorage.existsKey, List.any_eq_true]
  rcases List.mem_map.mp h with ⟨q, hq, hfst⟩
  exact ⟨q, hq, by simp [hfst]⟩

theorem mem_keys_star_of_mem {st : MemoryStorage} {k : Str}
    (h : k ∈ st.data.map Prod.fst) : k ∈ st.keys ['*'] := by
  unfold MemoryStorage.keys
  rw [if_pos rfl]
  exact h

/-! ## Claim C1 -/

/-- C1 as stated is false: in the storage obtained by `set("k", "v", ttl=1)`
at time 0, the key is expired but unswept at time 2 (`get` does return the
default), yet `exists` still returns `True` and the key still appears in
`keys("*")` — `exists` and `keys` never consult the expiry map. -/
theorem claim1_counterexample :
    alGet ((initStorage 0).set ("k".toList) (Value.str ("v".toList)) (some 1) 0).expiry
        ("k".toList) = some 1
    ∧ (((initStorage 0).set ("k".toList) (Value.str ("v".toList)) (some 1) 0).get
        ("k".toList) Value.nil 2).2 = Value.nil
    ∧ ((initStorage 0).set ("k".toList) (Value.str ("v".toList)) (some 1) 0).existsKey
        ("k".toList) = true
    ∧ ("k".toList) ∈ ((initStorage 0).set ("k".toList) (Value.str ("v".toList)) (some 1) 0).keys
        ['*'] := by
  decide

/-- C1 amended: for a key whose expiry instant has passed but that has not
been swept, `get(key, default)` deletes the key and returns the default,
but `exists(key)` still returns `True` and the key still appears in
`keys("*")` — only `get` performs lazy expiry; `exists` and `keys` read
the raw data map. -/
theorem claim1 (st : MemoryStorage) (k : Str) (d : Value) (now e : Int)
    (hexp : alGet st.expiry k = some e) (hlt : e < now)
    (hdata : k ∈ st.data.map Prod.fst) :
    (st.get k d now).2 = d
    ∧ (st.get k d now).1 = st.delete k
    ∧ st.existsKey k = true
    ∧ k ∈ st.keys ['*'] := by
  refine ⟨?_, ?_, existsKey_of_mem hdata, mem_keys_star_of_mem hdata⟩
  · simp [MemoryStorage.get, hexp, hlt]
  · simp [MemoryStorage.get, hexp, hlt]

/-- Witness for C1: a concrete expired-but-unswept key. -/
theorem claim1_witness :
    (((initStorage 0).set ("x".toList) (Value.num 7) (some 3) 0).get
        ("x".toList) Value.nil 5).2 = Value.nil
    ∧ (((initStorage 0).set ("x".toList) (Value.num 7) (some 3) 0).get
        ("x".toList) Value.nil 5).1
      = ((initStorage 0).set ("x".toList) (Value.num 7) (some 3) 0).delete ("x".toList)
    ∧ ((initStorage 0).set ("x".toList) (Value.num 7) (some 3) 0).existsKey ("x".toList) = true
    ∧ ("x".toList) ∈ ((initStorage 0).set ("x".toList) (Value.num 7) (some 3) 0).keys ['*'] :=
  claim1 ((initStorage 0).set ("x".toList) (Value.num 7) (some 3) 0)
    ("x".toList) Value.nil 5 3 (by decide) (by decide) (by decide)

/-! ## Claim C9 -/

/-- C9 as stated is false: `set("k", 2, ttl=0)` on a key that an earlier
`set("k", 1, ttl=5)` gave an expiry instant does not store the value
"with no expiry instant at all" — the old expiry entry survives (the
falsy `ttl` merely skips the expiry write), so the key still expires:
`get` at time 6 returns the default. -/
theorem claim9_counterexample :
    alGet (((initStorage 0).set ("k".toList) (Value.num 1) (some 5) 0).set
        ("k".toList) (Value.num 2) (some 0) 0).expiry ("k".toList) = some 5
    ∧ ((((initStorage 0).set ("k".toList) (Value.num 1) (some 5) 0).set
        ("k".toList) (Value.num 2) (some 0) 0).get ("k".toList) Value.nil 6).2 = Value.nil := by
  decide

/-- C9 amended: `set(key, value, ttl=0)` behaves exactly as `set` with no
ttl — the ttl-present check treats `0` as absent, so no expiry instant is
written (but a pre-existing expiry entry is not cleared either).  When the
key has no prior expiry entry, it never expires: it stays visible to
`get`, `exists` and `keys` at every later time. -/
theorem claim9 (st : MemoryStorage) (k : Str) (v : Value) (now : Int)
    (h : alGet st.expiry k = none) :
    st.set k v (some 0) now = st.set k v none now
    ∧ alGet (st.set k v (some 0) now).expiry k = none
    ∧ (∀ now' d, ((st.set k v (some 0) now).get k d now').2 = v)
    ∧ (st.set k v (some 0) now).existsKey k = true
    ∧ k ∈ (st.set k v (some 0) now).keys ['*'] := by
  have hmem : k ∈ (st.set k v (some 0) now).data.map Prod.fst :=
    mem_map_fst_of_alGet (v := v) (by simpa [MemoryStorage.set] using alGet_alSet_self st.data k v)
  refine ⟨by simp [MemoryStorage.set], by simpa [MemoryStorage.set] using h, ?_,
    existsKey_of_mem hmem, mem_keys_star_of_mem hmem⟩
  intro now' d
  simp [MemoryStorage.get, MemoryStorage.set, h, alGet_alSet_self]

/-- Witness for C9: a fresh key set with `ttl=0`. -/
theorem claim9_witness :
    (initStorage 0).set ("k".toList) (Value.num 3) (some 0) 0
      = (initStorage 0).set ("k".toList) (Value.num 3) none 0
    ∧ alGet ((initStorage 0).set ("k".toList) (Value.num 3) (some 0) 0).expiry
        ("k".toList) = none
    ∧ (((initStorage 0).set ("k".toList) (Value.num 3) (some 0) 0).get
        ("k".toList) Value.nil 1000000).2 = Value.num 3
    ∧ ((initStorage 0).set ("k".toList) (Value.num 3) (some 0) 0).existsKey
        ("k".toList) = true
    ∧ ("k".toList) ∈ ((initStorage 0).set ("k".toList) (Value.num 3) (some 0) 0).keys ['*'] := by
  have h := claim9 (initStorage 0) ("k".toList) (Value.num 3) 0 (by decide)
  exact ⟨h.1, h.2.1, h.2.2.1 1000000 Value.nil, h.2.2.2.1, h.2.2.2.2⟩

/-! ## Claim C10 -/

/-- C10: `get` on a key with no expiry entry, or whose expiry instant has
not yet passed, returns the storage completely unchanged (data map,
expiry map and stats) — `get` mutates state only in the expired-key
case. -/
theorem claim10 (st : MemoryStorage) (k : Str) (d : Value) (now : Int)
    (h : (alGet st.expiry k).all (fun e => decide (now ≤ e)) = true) :
    (st.get k d now).1 = st := by
  unfold MemoryStorage.get
  cases hexp : alGet st.expiry k with
  | none => simp
  | some e =>
      have hle : now ≤ e := by
        rw [hexp] at h
        simpa [Option.all] using h
      simp [if_neg (not_lt.mpr hle)]

/-- Witness for C10: a concrete unexpired key read by `get`. -/
theorem claim10_witness :
    (((initStorage 0).set ("k".toList) (Value.num 7) (some 10) 0).get
        ("k".toList) (Value.num 0) 3).1
      = (initStorage 0).set ("k".toList) (Value.num 7) (some 10) 0 :=
  claim10 ((initStorage 0).set ("k".toList) (Value.num 7) (some 10) 0)
    ("k".toList) (Value.num 0) 3 (by decide)

/-! ## Claim C4 -/

/-- C4: `stop_bot` returns `True` and writes `status = "stopped"` on every
path — whether or not a handle exists for the token, and even when the
teardown of the running instance raises (the exception is swallowed).
Quantifying over every state `s` also gives idempotence: stopping an
already-stopped token again still succeeds and leaves the status
`"stopped"`. -/
theorem claim4 (s : Sys) (token : Str) (teardownFails : Bool) (now : Int) :
    (stop_bot s token teardownFails now).2 = true
    ∧ alGet ((stop_bot s token teardownFails now).1).storage.data (statusKey token)
        = some (Value.str ("stopped".toList)) := by
  unfold stop_bot
  by_cases hb : (alGet s.mgr.bots token).isSome = true
  · by_cases ht : teardownFails = true
    · simp [hb, ht, MemoryStorage.set, alGet_alSet_self]
    · simp [hb, ht, MemoryStorage.set, alGet_alSet_self]
  · simp [hb, MemoryStorage.set, alGet_alSet_self]

/-! ## Claim C5 -/

/-- C5: when scheduling the `run_bot` task fails, `start_bot` writes
`status = "error"` and returns `False`; and `start_bot` returns `True`
only when scheduling succeeded (the claim's own reading of launch
success: the task is scheduled, not that any event has arrived — the
call never waits for the bot to connect). -/
theorem claim5 (s : Sys) (token code : Str) (teardownFails : Bool)
    (now : Int) (taskId : Nat) :
    ((start_bot s token code teardownFails true now taskId).2 = false
      ∧ alGet ((start_bot s token code teardownFails true now taskId).1).storage.data
          (statusKey token) = some (Value.str ("error".toList)))
    ∧ (∀ schedFails, (start_bot s token code teardownFails schedFails now taskId).2 = true
        → schedFails = false) := by
  have h1 : (start_bot s token code teardownFails true now taskId).2 = false := by
    simp only [start_bot]
    split
    · rfl
    · rfl
  have h2 : alGet ((start_bot s token code teardownFails true now taskId).1).storage.data
      (statusKey token) = some (Value.str ("error".toList)) := by
    simp only [start_bot]
    split
    · simp [MemoryStorage.set, alGet_alSet_self]
    · simp [MemoryStorage.set, alGet_alSet_self]
  refine ⟨⟨h1, h2⟩, ?_⟩
  intro sf hret
  cases sf with
  | false => rfl
  | true => exact absurd hret (by simp [h1])

/-- Witness for C5: from the initial state, a scheduling failure yields
`False` plus an `"error"` status, and with scheduling working the same
call returns `True`. -/
theorem claim5_witness :
    (start_bot (initSys 0) ("t".toList) ("c".toList) false true 0 0).2 = false
    ∧ alGet ((start_bot (initSys 0) ("t".toList) ("c".toList) false true 0 0).1).storage.data
        (statusKey ("t".toList)) = some (Value.str ("error".toList))
    ∧ false = false := by
  have h := claim5 (initSys 0) ("t".toList) ("c".toList) false 0 0
  exact ⟨h.1.1, h.1.2, h.2 false (by decide)⟩

/-! ## Claim C2 -/

/-- C2 is violated by the code: after `start_bot("tkA", "c")` and
`delete_bot("tkA")`, the keys namespaced under the token are still in the
store — `keys("bot:tkA:*")` matches the pattern as a literal substring
(no key contains the character `*`), so nothing is deleted — and the
status key still holds `"stopped"`, so `get_bot_info` reports
`"stopped"`, not `"not_found"` as the claim (and `delete_bot`'s own
"delete all bot data" docstring) requires. -/
theorem claim2_bug :
    alGet ((delete_bot (start_bot (initSys 0) ("tkA".toList) ("c".toList) false false 0 0).1
        ("tkA".toList) false 1).1).storage.data (statusKey ("tkA".toList))
      = some (Value.str ("stopped".toList))
    ∧ alGet ((delete_bot (start_bot (initSys 0) ("tkA".toList) ("c".toList) false false 0 0).1
        ("tkA".toList) false 1).1).storage.data (codeKey ("tkA".toList))
      = some (Value.str ("c".toList))
    ∧ (get_bot_info ((delete_bot (start_bot (initSys 0) ("tkA".toList) ("c".toList) false false 0 0).1
        ("tkA".toList) false 1).1) ("tkA".toList) 1).2.status
      = Value.str ("stopped".toList) := by
  decide

/-! ## Claim C7 -/

/-- C7 is violated by the code: `start_bot` increments the storage key
`"stats:bots_created"`, but `get_stats` reports
`storage.stats['bots_created']`, a dict field that is initialised to 0
and never written again — so after a `start_bot` the reported
`bots_created` is still 0 while the incremented counter holds 1. -/
theorem claim7_bug (tok code : Str) (t0 t1 t2 : Int) (taskId : Nat) :
    (get_stats ((start_bot (initSys t0) tok code false false t1 taskId).1) t2).bots_created = 0
    ∧ alGet ((start_bot (initSys t0) tok code false false t1 taskId).1).storage.data
        statsCreatedKey = some (Value.num 1) := by
  constructor
  · simp [get_stats, start_bot, initSys, initStorage, MemoryStorage.set, MemoryStorage.incr,
      MemoryStorage.get, alGet, alSet, Value.toInt?]
  · simp [start_bot, initSys, initStorage, MemoryStorage.set, MemoryStorage.incr,
      MemoryStorage.get, alGet, alSet, Value.toInt?]

/-! ## Claim C3 -/

/-- C3: two sequential `start_bot` calls for the same token (each
followed by its scheduled `run_bot` completing successfully) leave
exactly one live handle and one task for the token — the second call
stops the first instance before starting, so the handle map holds only
the second instance and the task map only the second task, and both
calls return `True`. -/
theorem claim3 (t0 t1 t2 : Int) (tok code1 code2 : Str)
    (task1 task2 inst1 inst2 : Nat) :
    (run_bot_step ((start_bot (run_bot_step ((start_bot (initSys t0) tok code1 false false t1
          task1).1) tok true inst1 t1) tok code2 false false t2 task2).1) tok true inst2
        t2).mgr.bots = [(tok, inst2)]
    ∧ (run_bot_step ((start_bot (run_bot_step ((start_bot (initSys t0) tok code1 false false t1
          task1).1) tok true inst1 t1) tok code2 false false t2 task2).1) tok true inst2
        t2).mgr.bot_tasks = [(tok, task2)]
    ∧ (start_bot (initSys t0) tok code1 false false t1 task1).2 = true
    ∧ (start_bot (run_bot_step ((start_bot (initSys t0) tok code1 false false t1 task1).1) tok
        true inst1 t1) tok code2 false false t2 task2).2 = true := by
  have h1 : start_bot (initSys t0) tok code1 false false t1 task1
      = ({ storage :=
             { data := [(codeKey tok, Value.str code1),
                        (statusKey tok, Value.str ("active".toList)),
                        (lastActiveKey tok, Value.num t1),
                        (createdAtKey tok, Value.num t1),
                        (statsCreatedKey, Value.num 1)],
               expiry := [],
               stats := { bots_created := 0, bots_active := 0, memory_usage := 0,
                          last_cleanup := t0 } },
           mgr := { bots := [], bot_tasks := [(tok, task1)] } }, true) := by
    simp [start_bot, initSys, initStorage, MemoryStorage.set, MemoryStorage.incr,
      MemoryStorage.get, Value.toInt?, alGet, alSet]
  have h2 : run_bot_step ((start_bot (initSys t0) tok code1 false false t1 task1).1) tok
        true inst1 t1
      = { storage :=
            { data := [(codeKey tok, Value.str code1),
                       (statusKey tok, Value.str ("active".toList)),
                       (lastActiveKey tok, Value.num t1),
                       (createdAtKey tok, Value.num t1),
                       (statsCreatedKey, Value.num 1)],
              expiry := [],
              stats := { bots_created := 0, bots_active := 0, memory_usage := 0,
                         last_cleanup := t0 } },
          mgr := { bots := [(tok, inst1)], bot_tasks := [(tok, task1)] } } := by
    rw [h1]
    simp [run_bot_step, alSet]
  have h3 : start_bot (run_bot_step ((start_bot (initSys t0) tok code1 false false t1
        task1).1) tok true inst1 t1) tok code2 false false t2 task2
      = ({ storage :=
             { data := [(codeKey tok, Value.str code2),
                        (statusKey tok, Value.str ("active".toList)),
                        (lastActiveKey tok, Value.num t2),
                        (createdAtKey tok, Value.num t2),
                        (statsCreatedKey, Value.num 2)],
               expiry := [],
               stats := { bots_created := 0, bots_active := 0, memory_usage := 0,
                          last_cleanup := t0 } },
           mgr := { bots := [], bot_tasks := [(tok, task2)] } }, true) := by
    rw [h2]
    simp [start_bot, stop_bot, MemoryStorage.set, MemoryStorage.incr,
      MemoryStorage.get, Value.toInt?, alGet, alSet, alDel]
  refine ⟨?_, ?_, by simp [h1], by simp [h3]⟩
  · rw [h3]
    simp [run_bot_step, alSet]
  · rw [h3]
    simp [run_bot_step, alSet]

/-! ## Claim C6 -/

/-- Running `incr` atomically is exactly its read phase (`int(get(key, 0))`)
followed by its write phase (`set(key, val + 1)`): the decomposition used
by the interleaving model below is faithful to the code. -/
theorem incr_eq_read_then_write (st : MemoryStorage) (k : Str) (now : Int) :
    st.incr k now
      = (match (st.incrRead k now).2 with
         | some n => (((st.incrRead k now).1).incrWrite k n now, some (n + 1))
         | none => ((st.incrRead k now).1, none)) := by
  unfold MemoryStorage.incr MemoryStorage.incrRead MemoryStorage.incrWrite
  rfl

/-- The adversarial but valid interleaving of `n` concurrent `incr(k)`
callers in which every caller performs its read phase before any caller
performs its write phase.  Reads of a key with no expiry entry do not
mutate the storage, so every caller reads the same value `v0` out of
`st`; the writes then all store `v0 + 1`. -/
def raceAllReadsThenWrites (st : MemoryStorage) (k : Str) (n : Nat)
    (now : Int) : MemoryStorage :=
  (List.range n).foldl
    (fun acc _ => acc.incrWrite k (((st.incrRead k now).2).getD 0) now) st

theorem race_write_getValue (st : MemoryStorage) (k : Str) (now : Int) (n : Nat) :
    alGet ((List.range (n + 1)).foldl
        (fun acc _ => acc.incrWrite k 0 now) st).data k = some (Value.num 1) := by
  cases n with
  | zero =>
      rw [show List.range 1 = [0] from rfl]
      simp [MemoryStorage.incrWrite, MemoryStorage.set, alGet_alSet_self]
  | succ m =>
      rw [List.range_succ, List.foldl_append]
      simp [MemoryStorage.incrWrite, MemoryStorage.set, alGet_alSet_self]

/-- C6 is violated by the code: `incr` is an unlocked read-then-write, so
for every `N ≥ 100` there is a valid interleaving of `N` concurrent
`incr("c")` calls on an initially absent key (all reads before all
writes) whose final stored value is 1, not `N`.  The first two conjuncts
check the interleaving is real: each caller's read phase leaves the
storage unchanged and returns 0. -/
theorem claim6_bug (N : Nat) (h : 100 ≤ N) :
    ((initStorage 0).incrRead ("c".toList) 0).1 = initStorage 0
    ∧ ((initStorage 0).incrRead ("c".toList) 0).2 = some 0
    ∧ alGet (raceAllReadsThenWrites (initStorage 0) ("c".toList) N 0).data ("c".toList)
        = some (Value.num 1)
    ∧ (1 : Int) ≠ (N : Int) := by
  obtain ⟨m, rfl⟩ : ∃ m, N = m + 1 := ⟨N - 1, by omega⟩
  refine ⟨by decide, by decide, ?_, by omega⟩
  have hr : (((initStorage 0).incrRead ("c".toList) 0).2).getD 0 = 0 := by decide
  unfold raceAllReadsThenWrites
  rw [hr]
  exact race_write_getValue (initStorage 0) ("c".toList) 0 m

/-- Witness for C6 at `N = 100`. -/
theorem claim6_witness :
    ((initStorage 0).incrRead ("c".toList) 0).1 = initStorage 0
    ∧ ((initStorage 0).incrRead ("c".toList) 0).2 = some 0
    ∧ alGet (raceAllReadsThenWrites (initStorage 0) ("c".toList) 100 0).data ("c".toList)
        = some (Value.num 1)
    ∧ (1 : Int) ≠ (100 : Int) :=
  claim6_bug 100 (by decide)

/-! ## Claim C8 -/

theorem splitColon_no_colon : ∀ (l : Str), ∀ p ∈ splitColon l, ':' ∉ p := by
  intro l
  induction l with
  | nil =>
      intro p hp
      simp [splitColon] at hp
      simp [hp]
  | cons c cs ih =>
      intro p hp
      by_cases hc : c = ':'
      · simp only [splitColon, hc, if_pos rfl] at hp
        rcases List.mem_cons.mp hp with hp | hp
        · simp [hp]
        · exact ih p hp
      · simp only [splitColon, if_neg hc] at hp
        cases hr : splitColon cs with
        | nil =>
            rw [hr] at hp
            rcases List.mem_cons.mp hp with hp | hp
            · subst hp
              simpa using fun he => hc he.symm
            · simp at hp
        | cons q qs =>
            rw [hr] at hp
            rcases List.mem_cons.mp hp with hp | hp
            · subst hp
              intro hmem
              rcases List.mem_cons.mp hmem with hmem | hmem
              · exact hc hmem.symm
              · exact ih q (hr ▸ List.mem_cons_self q qs) hmem
            · exact ih p (hr ▸ List.mem_cons.mpr (Or.inr hp))

theorem get_all_bots_step_no_colon (now : Int) (acc : MemoryStorage × List BotSummary)
    (key : Str) (b : BotSummary) (hb : b ∈ (get_all_bots_step now acc key).2) :
    b ∈ acc.2 ∨ ':' ∉ b.token := by
  simp only [get_all_bots_step] at hb
  rcases List.mem_append.mp hb with hb | hb
  · exact Or.inl hb
  · right
    have hbe := List.mem_singleton.mp hb
    subst hbe
    intro hmem
    rcases List.mem_append.mp hmem with hmem | hmem
    · cases hg : (splitColon key).get? 1 with
      | none =>
          rw [hg] at hmem
          simp at hmem
      | some seg =>
          rw [hg] at hmem
          exact splitColon_no_colon key seg (List.get?_mem hg)
            (List.take_subset 10 seg (by simpa using hmem))
    · simp at hmem

theorem get_all_bots_no_colon (s : Sys) (now : Int) :
    ∀ b ∈ (get_all_bots s now).2, ':' ∉ b.token := by
  unfold get_all_bots
  generalize s.storage.keys statusGlobPat = ks
  have haux : ∀ (ks : List Str) (acc : MemoryStorage × List BotSummary),
      (∀ b ∈ acc.2, ':' ∉ b.token) →
      ∀ b ∈ (ks.foldl (get_all_bots_step now) acc).2, ':' ∉ b.token := by
    intro ks
    induction ks with
    | nil => intro acc hacc; simpa using hacc
    | cons key rest ih =>
        intro acc hacc b hb
        refine ih (get_all_bots_step now acc key) ?_ b (by simpa using hb)
        intro b' hb'
        rcases get_all_bots_step_no_colon now acc key b' hb' with h | h
        · exact hacc b' h
        · exact h
  exact haux ks (s.storage, []) (by simp)

/-- C8 as stated is false: tokens are attacker-chosen strings, and the
summary token is built from `key.split(":")[1][:10] + "..."`, which can
coincide with another stored bot's full token.  Concretely, after
`start_bot` of the token `"0123456789..."` and of the crafted token
`"0123456789:bot:*"` (whose status key `"bot:0123456789:bot:*:status"` is
the only key the substring-matched pattern `"bot:*:status"` finds),
`get_all_bots` returns exactly one summary, and its token field is
`"0123456789..."` — the full secret token of the first stored bot. -/
theorem claim8_counterexample :
    ((get_all_bots ((start_bot ((start_bot (initSys 0) ("0123456789...".toList)
          ("c".toList) false false 0 0).1) ("0123456789:bot:*".toList)
          ("d".toList) false false 1 1).1) 2).2.map (fun b => b.token))
      = [("0123456789...".toList)]
    ∧ (alGet ((start_bot ((start_bot (initSys 0) ("0123456789...".toList)
          ("c".toList) false false 0 0).1) ("0123456789:bot:*".toList)
          ("d".toList) false false 1 1).1).storage.data
          (statusKey ("0123456789...".toList))).isSome = true := by
  decide

/-- C8 amended: a summary's token field (`key.split(":")[1][:10] + "..."`)
never contains a colon, so it never equals the full token of a bot whose
token contains a colon — the format every Telegram token the upload
endpoint accepts has.  For colon-free crafted tokens the masked form can
coincide with a stored bot's full token (see the counterexample). -/
theorem claim8 (s : Sys) (now : Int) (T : Str) (hT : ':' ∈ T)
    (b : BotSummary) (hb : b ∈ (get_all_bots s now).2) : b.token ≠ T :=
  fun he => get_all_bots_no_colon s now b hb (he ▸ hT)

/-- Witness for C8: a concrete summary produced by `get_all_bots` differs
from a concrete colon-containing token. -/
theorem claim8_witness :
    ¬ (({ token := ("0123456789...".toList),
          status := Value.str ("active".toList),
          created_at := Value.nil } : BotSummary).token = ("x:y".toList)) :=
  claim8 ((start_bot (initSys 0) ("0123456789:bot:*".toList) ("d".toList) false false 0 0).1)
    5 ("x:y".toList) (by decide)
    { token := ("0123456789...".toList), status := Value.str ("active".toList),
      created_at := Value.nil }
    (by decide)
